import Mathlib

/-!
Shallow embedding of `src/src/lambda_function.py` (class `EC2Scheduler`) from
the zhuangyq008/ec2-auto-scheduler repository, together with theorems settling
the frozen claims about its behaviour.

Modelling conventions:
* Wall-clock instants are modelled by their local calendar components
  (`LocalTime`, a time of day with seconds); the Python code attaches the
  current instant's fixed UTC offset to the constructed start/stop instants
  (`replace(tzinfo=current_time.tzinfo)`), so the difference
  `current_time - start_datetime` equals the difference of the
  seconds-since-local-midnight values, which is what the embedding computes.
  (`Asia/Shanghai`, the default timezone, has no DST transitions.)
* AWS calls are oracles supplied in an `Env`: `describe_instances` either
  fails with `ClientError` or yields the (tag- and state-filtered) instance
  list; `start_instances`/`stop_instances` either fail with `ClientError` or
  report back a list of instance ids; `sns.publish` either succeeds or raises
  `ClientError`.
* Functions that perform AWS calls additionally return the list of control-API
  batches they issued, and `run` threads an `Effects` record, so that
  frame/effect claims ("never calls the control API", "no publish attempted")
  are statable.
-/

namespace EC2Scheduler

/-- A local wall-clock time of day (the components of Python's
`current_time` that the scheduler inspects: `current_time.time()` and the
seconds-of-day distance from a constructed same-date instant). -/
structure LocalTime where
  hour : Nat
  minute : Nat
  second : Nat
deriving DecidableEq, Repr

/-- A valid time of day. -/
def LocalTime.valid (t : LocalTime) : Prop :=
  t.hour < 24 ∧ t.minute < 60 ∧ t.second < 60

instance (t : LocalTime) : Decidable t.valid := by
  unfold LocalTime.valid; infer_instance

/-- Seconds since local midnight of a `LocalTime`. -/
def secondsOfDay (t : LocalTime) : Nat :=
  t.hour * 3600 + t.minute * 60 + t.second

/-- The result of Python's `datetime.time(hour, minute)` as built by
`_parse_time`: an hour/minute pair (seconds are zero). -/
structure ParsedTime where
  hour : Nat
  minute : Nat
deriving DecidableEq, Repr

/-- The loaded configuration dictionary (`self.config`).  Fields mirror the
keys of `_get_default_config`; `notification_topic = none` models the key
being `None`/absent. -/
structure ScheduleConfig where
  config_id : String
  tag_key : String
  tag_value : String
  start_time : String
  stop_time : String
  timezone : String
  enabled : Bool
  dry_run : Bool
  exclude_instance_ids : List String
  notification_topic : Option String
deriving DecidableEq, Repr

/-- `_get_default_config`: the built-in default configuration. -/
def _get_default_config : ScheduleConfig :=
  { config_id := "default"
    tag_key := "Env"
    tag_value := "Dev"
    start_time := "09:00"
    stop_time := "00:00"
    timezone := "Asia/Shanghai"
    enabled := true
    dry_run := false
    exclude_instance_ids := []
    notification_topic := none }

/-- `_load_config`: the DynamoDB read, as an oracle.  `.error ()` is a
`ClientError` from `get_item`; `.ok none` is a response with no `Item`;
`.ok (some c)` is a response carrying the record `c`. -/
def _load_config (store : Except Unit (Option ScheduleConfig)) : ScheduleConfig :=
  match store with
  | .error _ => _get_default_config
  | .ok none => _get_default_config
  | .ok (some c) => c

/-- Python's `str.split(sep)` for a one-character separator, on the
character list of the string: splits at every occurrence, keeping empty
fields. -/
def splitOnChar (sep : Char) : List Char → List (List Char)
  | [] => [[]]
  | c :: cs =>
    match splitOnChar sep cs with
    | [] => [[c]]
    | r :: rs => if c = sep then [] :: r :: rs else (c :: r) :: rs

/-- Python's `int` on a string of decimal digits. -/
def digitsToNat (cs : List Char) : Nat :=
  cs.foldl (fun acc c => acc * 10 + (c.toNat - 48)) 0

/-- `_parse_time`: `hour, minute = map(int, time_str.split(':'))`.
For the well-formed `"HH:MM"` strings the claims use, this is exact;
for ill-formed strings Python raises, which the embedding collapses to
`⟨0, 0⟩` (no claim exercises that case). -/
def _parse_time (time_str : String) : ParsedTime :=
  match (splitOnChar ':' time_str.toList).map digitsToNat with
  | [h, m] => ⟨h, m⟩
  | _ => ⟨0, 0⟩

/-- `_should_start_instances`: true iff the current time is within 300
seconds (inclusive) of today's date combined with the configured
`start_time`. -/
def _should_start_instances (cfg : ScheduleConfig) (current_time : LocalTime) : Bool :=
  let start_time := _parse_time cfg.start_time
  let time_diff :=
    ((secondsOfDay current_time : Int) -
      (start_time.hour * 3600 + start_time.minute * 60 : Int)).natAbs
  time_diff ≤ 300

/-- `_should_stop_instances`: for `stop_time == 00:00` the code compares
`current_seconds = hour * 3600 + minute * 60` (the seconds component of the
current time is dropped) against `23:55:00` and `00:05:00`; otherwise it is
the same ±300 s check as for start. -/
def _should_stop_instances (cfg : ScheduleConfig) (current_time : LocalTime) : Bool :=
  let stop_time := _parse_time cfg.stop_time
  if stop_time.hour == 0 && stop_time.minute == 0 then
    let current_seconds := current_time.hour * 3600 + current_time.minute * 60
    if current_seconds ≥ 23 * 3600 + 55 * 60 || current_seconds ≤ 5 * 60 then
      true
    else
      false
  else
    let time_diff :=
      ((secondsOfDay current_time : Int) -
        (stop_time.hour * 3600 + stop_time.minute * 60 : Int)).natAbs
    time_diff ≤ 300

/-- One EC2 instance as recorded by `_find_target_instances`: the
`InstanceId`, `State.Name`, `InstanceType` and `Tags` fields it copies out of
the `describe_instances` response. -/
structure Instance where
  instanceId : String
  state : String
  instanceType : String
  tags : List (String × String)
deriving DecidableEq, Repr

/-- Outcome of one `start_instances`/`stop_instances` control call:
either a normal response reporting a list of instance ids back
(`StartingInstances`/`StoppingInstances`), or a `ClientError`. -/
inductive ApiResult where
  | ok (reported : List String)
  | err
deriving DecidableEq, Repr

/-- The per-action result dictionary `{'success': ..., 'failed': ...}`. -/
structure ActionResult where
  success : List String
  failed : List String
deriving DecidableEq, Repr

/-- The external world of one invocation: the `describe_instances` outcome
(`.error ()` is a `ClientError`; the list carries the instances matching the
requested tag and state filters, reservations already flattened), the two
control-call oracles, whether `sns.publish` would succeed, and the current
time in the configured timezone. -/
structure Env where
  describeResult : Except Unit (List Instance)
  startApi : List String → ApiResult
  stopApi : List String → ApiResult
  publishOk : Bool
  now : LocalTime

/-- `_find_target_instances`: on `ClientError` returns `[]`; otherwise keeps
the matched instances whose id is not in `exclude_instance_ids`. -/
def _find_target_instances (cfg : ScheduleConfig) (res : Except Unit (List Instance)) :
    List Instance :=
  match res with
  | .error _ => []
  | .ok raw => raw.filter (fun inst => !(cfg.exclude_instance_ids.contains inst.instanceId))

/-- `_start_instances`.  Besides the `ActionResult`, returns the list of id
batches actually sent to the `start_instances` control API (empty for the
empty-input and dry-run early returns). -/
def _start_instances (cfg : ScheduleConfig) (api : List String → ApiResult)
    (instance_ids : List String) : ActionResult × List (List String) :=
  if instance_ids.isEmpty then (⟨[], []⟩, [])
  else if cfg.dry_run then (⟨instance_ids, []⟩, [])
  else
    match api instance_ids with
    | .ok success_ids => (⟨success_ids, []⟩, [instance_ids])
    | .err => (⟨[], instance_ids⟩, [instance_ids])

/-- `_stop_instances`: same shape as `_start_instances`, against the stop
control API. -/
def _stop_instances (cfg : ScheduleConfig) (api : List String → ApiResult)
    (instance_ids : List String) : ActionResult × List (List String) :=
  if instance_ids.isEmpty then (⟨[], []⟩, [])
  else if cfg.dry_run then (⟨instance_ids, []⟩, [])
  else
    match api instance_ids with
    | .ok success_ids => (⟨success_ids, []⟩, [instance_ids])
    | .err => (⟨[], instance_ids⟩, [instance_ids])

/-- `_send_notification`: returns the list of publish attempts, each paired
with its delivery outcome.  No topic (Python falsiness: `None` or the empty
string) means no attempt; a `ClientError` from `publish` is caught, so the
outcome never escapes this function. -/
def _send_notification (cfg : ScheduleConfig) (publishOk : Bool) (message : String) :
    List (String × Bool) :=
  match cfg.notification_topic with
  | none => []
  | some topic_arn => if topic_arn = "" then [] else [(message, publishOk)]

/-- One entry of the result's `actions` list. -/
structure ActionEntry where
  action : String
  success : List String
  failed : List String
deriving DecidableEq, Repr

/-- The dictionary `run` returns.  Keys absent from a given Python result are
`none` here; `current_time` holds the local time whose ISO form Python would
store. -/
structure RunResult where
  status : String
  message : Option String
  current_time : Option LocalTime
  total_instances : Option Nat
  actions : Option (List ActionEntry)
deriving DecidableEq, Repr

/-- The externally visible calls one `run` makes: whether
`describe_instances` was invoked, whether the start/stop windows were
evaluated, the id batches sent to each control API, and the publish attempts
with their outcomes. -/
structure Effects where
  describeCalled : Bool
  windowEvaluated : Bool
  startCalls : List (List String)
  stopCalls : List (List String)
  publishCalls : List (String × Bool)
deriving DecidableEq, Repr

/-- `run`: the scheduling decision of one invocation, paired with the calls
it makes. -/
def run (cfg : ScheduleConfig) (env : Env) : RunResult × Effects :=
  if !cfg.enabled then
    ({ status := "disabled", message := some "调度器已禁用",
       current_time := none, total_instances := none, actions := none },
     ⟨false, false, [], [], []⟩)
  else
    let current_time := env.now
    let instances := _find_target_instances cfg env.describeResult
    if instances.isEmpty then
      ({ status := "no_instances", message := some "未找到匹配的实例",
         current_time := none, total_instances := none, actions := none },
       ⟨true, false, [], [], []⟩)
    else
      let should_start := _should_start_instances cfg current_time
      let should_stop := _should_stop_instances cfg current_time
      if should_start then
        let stopped_instances :=
          (instances.filter (fun inst => inst.state == "stopped")).map
            (fun inst => inst.instanceId)
        if stopped_instances.isEmpty then
          ({ status := "completed", message := none, current_time := some current_time,
             total_instances := some instances.length, actions := some [] },
           ⟨true, true, [], [], []⟩)
        else
          let start_result := _start_instances cfg env.startApi stopped_instances
          let ok_ids := start_result.1.success
          let n := ok_ids.length
          let pubs :=
            if ok_ids.isEmpty then []
            else _send_notification cfg env.publishOk s!"已启动 {n} 个实例: {ok_ids}"
          ({ status := "completed", message := none, current_time := some current_time,
             total_instances := some instances.length,
             actions := some [⟨"start", start_result.1.success, start_result.1.failed⟩] },
           ⟨true, true, start_result.2, [], pubs⟩)
      else if should_stop then
        let running_instances :=
          (instances.filter (fun inst => inst.state == "running")).map
            (fun inst => inst.instanceId)
        if running_instances.isEmpty then
          ({ status := "completed", message := none, current_time := some current_time,
             total_instances := some instances.length, actions := some [] },
           ⟨true, true, [], [], []⟩)
        else
          let stop_result := _stop_instances cfg env.stopApi running_instances
          let ok_ids := stop_result.1.success
          let n := ok_ids.length
          let pubs :=
            if ok_ids.isEmpty then []
            else _send_notification cfg env.publishOk s!"已停止 {n} 个实例: {ok_ids}"
          ({ status := "completed", message := none, current_time := some current_time,
             total_instances := some instances.length,
             actions := some [⟨"stop", stop_result.1.success, stop_result.1.failed⟩] },
           ⟨true, true, [], stop_result.2, pubs⟩)
      else
        ({ status := "no_action", message := some "当前时间不在启动或停止时间窗口内",
           current_time := some current_time, total_instances := some instances.length,
           actions := some [] },
         ⟨true, true, [], [], []⟩)

/-- Spec-side predicate, stated from the claim's words, for comparison with
`_should_stop_instances`: the window
`[23:55:00, 24:00:00) ∪ [00:00:00, 00:05:00]` of local times-of-day in which
the claim asserts the midnight stop check is true. -/
def claimedMidnightStopWindow (t : LocalTime) : Prop :=
  23 * 3600 + 55 * 60 ≤ secondsOfDay t ∨ secondsOfDay t ≤ 5 * 60

instance (t : LocalTime) : Decidable (claimedMidnightStopWindow t) := by
  unfold claimedMidnightStopWindow; infer_instance

/-! Concrete fixtures used by witnesses and counterexamples. -/

/-- A control-API oracle that reports back only `"i-1"`. -/
def apiReportsOne : List String → ApiResult := fun _ => .ok ["i-1"]

/-- A control-API oracle that fails with `ClientError`. -/
def apiClientError : List String → ApiResult := fun _ => .err

/-- A control-API oracle that reports back every requested id. -/
def apiEcho : List String → ApiResult := fun ids => .ok ids

/-- A tag-matched running instance. -/
def instRunning : Instance := ⟨"i-1", "running", "t3.micro", [("Env", "Dev")]⟩

/-- A tag-matched stopped instance. -/
def instStopped : Instance := ⟨"i-2", "stopped", "t3.micro", [("Env", "Dev")]⟩

/-- An environment at local time `t` with one running and one stopped
instance and well-behaved AWS APIs. -/
def envAt (t : LocalTime) : Env :=
  ⟨.ok [instRunning, instStopped], apiEcho, apiEcho, true, t⟩

/-- The default configuration with `start_time` moved to `"00:00"`, so that
the start and the midnight stop window overlap. -/
def cfgStartMidnight : ScheduleConfig := { _get_default_config with start_time := "00:00" }

/-- The default configuration with the scheduler disabled. -/
def cfgDisabled : ScheduleConfig := { _get_default_config with enabled := false }

/-- The default configuration in dry-run mode. -/
def cfgDry : ScheduleConfig := { _get_default_config with dry_run := true }

/-! Helper lemmas shared by the claim theorems. -/

/-- In dry-run mode `_start_instances` issues no control call. -/
lemma start_calls_nil_of_dry (cfg : ScheduleConfig) (api : List String → ApiResult)
    (ids : List String) (h : cfg.dry_run = true) :
    (_start_instances cfg api ids).2 = [] := by
  unfold _start_instances
  split <;> simp [h]

/-- In dry-run mode `_stop_instances` issues no control call. -/
lemma stop_calls_nil_of_dry (cfg : ScheduleConfig) (api : List String → ApiResult)
    (ids : List String) (h : cfg.dry_run = true) :
    (_stop_instances cfg api ids).2 = [] := by
  unfold _stop_instances
  split <;> simp [h]

/-- C6: config resolution never fails the caller: a store-read error and a
missing record both yield the built-in default configuration, whose fields
are tag `Env=Dev`, start `09:00`, stop `00:00`, timezone `Asia/Shanghai`,
enabled, not dry-run, empty exclusion list and no notification topic. -/
theorem config_fallback_is_builtin_default :
    _load_config (.error ()) = _get_default_config ∧
    _load_config (.ok none) = _get_default_config ∧
    _get_default_config.tag_key = "Env" ∧
    _get_default_config.tag_value = "Dev" ∧
    _get_default_config.start_time = "09:00" ∧
    _get_default_config.stop_time = "00:00" ∧
    _get_default_config.timezone = "Asia/Shanghai" ∧
    _get_default_config.enabled = true ∧
    _get_default_config.dry_run = false ∧
    _get_default_config.exclude_instance_ids = [] ∧
    _get_default_config.notification_topic = none :=
  ⟨rfl, rfl, rfl, rfl, rfl, rfl, rfl, rfl, rfl, rfl, rfl⟩

/-- C5: in dry-run mode, a start or stop action on a non-empty id list
issues no control-API call and reports every targeted id as succeeded with
an empty failed list; consequently a dry-run `run` sends no start or stop
batches either. -/
theorem dry_run_no_control_calls (cfg : ScheduleConfig) (env : Env) (ids : List String)
    (hdry : cfg.dry_run = true) (hne : ids ≠ []) :
    _start_instances cfg env.startApi ids = (⟨ids, []⟩, []) ∧
    _stop_instances cfg env.stopApi ids = (⟨ids, []⟩, []) ∧
    (run cfg env).2.startCalls = [] ∧
    (run cfg env).2.stopCalls = [] := by
  have hne' : ids.isEmpty = false := by
    cases ids with
    | nil => exact absurd rfl hne
    | cons a l => rfl
  refine ⟨?_, ?_, ?_, ?_⟩
  · unfold _start_instances
    simp [hne', hdry]
  · unfold _stop_instances
    simp [hne', hdry]
  · simp only [run]
    split_ifs <;>
      simp [start_calls_nil_of_dry _ _ _ hdry, stop_calls_nil_of_dry _ _ _ hdry]
  · simp only [run]
    split_ifs <;>
      simp [start_calls_nil_of_dry _ _ _ hdry, stop_calls_nil_of_dry _ _ _ hdry]

/-- C5 witness: the dry-run default configuration at a concrete id list. -/
theorem dry_run_no_control_calls_witness :
    _start_instances cfgDry (envAt ⟨9, 0, 0⟩).startApi ["i-2"] = (⟨["i-2"], []⟩, []) ∧
    (run cfgDry (envAt ⟨9, 0, 0⟩)).2.startCalls = [] := by
  have h := dry_run_no_control_calls cfgDry (envAt ⟨9, 0, 0⟩) ["i-2"] rfl (by decide)
  exact ⟨h.1, h.2.2.1⟩

/-- C9: every `ActionResult` is all-or-nothing: its success and failed lists
are never both non-empty; a normally-returning control call always leaves
`failed` empty, and a control-API error leaves `success` empty with every
requested id in `failed`. -/
theorem action_result_all_or_nothing (cfg : ScheduleConfig)
    (api : List String → ApiResult) (ids : List String) :
    ((_start_instances cfg api ids).1.success = [] ∨
       (_start_instances cfg api ids).1.failed = []) ∧
    ((_stop_instances cfg api ids).1.success = [] ∨
       (_stop_instances cfg api ids).1.failed = []) ∧
    (∀ rep, api ids = .ok rep →
      (_start_instances cfg api ids).1.failed = [] ∧
      (_stop_instances cfg api ids).1.failed = []) ∧
    (api ids = .err → cfg.dry_run = false → ids ≠ [] →
      (_start_instances cfg api ids).1 = ⟨[], ids⟩ ∧
      (_stop_instances cfg api ids).1 = ⟨[], ids⟩) := by
  refine ⟨?_, ?_, ?_, ?_⟩
  · unfold _start_instances
    cases h : api ids <;> split_ifs <;> simp [h]
  · unfold _stop_instances
    cases h : api ids <;> split_ifs <;> simp [h]
  · intro rep hrep
    unfold _start_instances _stop_instances
    split_ifs <;> simp [hrep]
  · intro herr hdry hne
    have hne' : ids.isEmpty = false := by
      cases ids with
      | nil => exact absurd rfl hne
      | cons a l => rfl
    unfold _start_instances _stop_instances
    simp [hne', hdry, herr]

/-- C9 witness: the default configuration against an erroring control API on
a concrete id list. -/
theorem action_result_all_or_nothing_witness :
    ((_start_instances _get_default_config apiClientError ["i-1"]).1.success = [] ∨
       (_start_instances _get_default_config apiClientError ["i-1"]).1.failed = []) ∧
    (_start_instances _get_default_config apiClientError ["i-1"]).1 = ⟨[], ["i-1"]⟩ := by
  have h := action_result_all_or_nothing _get_default_config apiClientError ["i-1"]
  exact ⟨h.1, (h.2.2.2 rfl rfl (by decide)).1⟩

/-- C2 counterexample: a non-dry-run start action on `["i-1", "i-2"]` whose
control call reports back only `"i-1"`.  The claim requires the unreported
requested id `"i-2"` to be classified failed, but the code returns an empty
failed list. -/
theorem unreported_ids_not_failed_at_concrete_call :
    "i-2" ∈ ["i-1", "i-2"] ∧
    "i-2" ∉ ["i-1"] ∧
    _get_default_config.dry_run = false ∧
    apiReportsOne ["i-1", "i-2"] = .ok ["i-1"] ∧
    (_start_instances _get_default_config apiReportsOne ["i-1", "i-2"]).1.failed = [] := by
  refine ⟨by decide, by decide, rfl, rfl, ?_⟩
  unfold _start_instances
  decide

/-- C2 amended: for a non-dry-run start or stop action on a non-empty id
list whose control call returns normally, the result's success list is
exactly the ids the API reports back and the failed list is empty; requested
ids not reported back appear in neither list (only a control-API error
classifies ids as failed). -/
theorem normal_return_failed_empty (cfg : ScheduleConfig)
    (api : List String → ApiResult) (ids rep : List String)
    (hdry : cfg.dry_run = false) (hne : ids ≠ []) (hapi : api ids = .ok rep) :
    (_start_instances cfg api ids).1 = ⟨rep, []⟩ ∧
    (_stop_instances cfg api ids).1 = ⟨rep, []⟩ := by
  have hne' : ids.isEmpty = false := by
    cases ids with
    | nil => exact absurd rfl hne
    | cons a l => rfl
  unfold _start_instances _stop_instances
  simp [hne', hdry, hapi]

/-- C2 amended witness: the concrete call of the counterexample, with
success exactly the reported id and failed empty. -/
theorem normal_return_failed_empty_witness :
    (_start_instances _get_default_config apiReportsOne ["i-1", "i-2"]).1 = ⟨["i-1"], []⟩ := by
  exact (normal_return_failed_empty _get_default_config apiReportsOne
    ["i-1", "i-2"] ["i-1"] rfl (by decide) rfl).1

/-- C1 counterexample: at local time `00:05:01` the claimed window
`[23:55:00, 24:00:00) ∪ [00:00:00, 00:05:00]` excludes the time (the claim
asserts `should_stop` is false there), but `_should_stop_instances` with
`stop_time = "00:00"` returns true, because the code compares
`hour * 3600 + minute * 60` and drops the seconds component. -/
theorem stop_window_claim_refuted_at_000501 :
    ¬ claimedMidnightStopWindow ⟨0, 5, 1⟩ ∧
    _get_default_config.stop_time = "00:00" ∧
    _should_stop_instances _get_default_config ⟨0, 5, 1⟩ = true := by
  refine ⟨by decide, rfl, ?_⟩
  decide

/-- C1 amended: for `stop_time = "00:00"`, `should_stop` is true exactly for
local times-of-day in `[23:55:00, 24:00:00) ∪ [00:00:00, 00:06:00)`: the
check ignores the seconds component, so it is false at `23:54:59` but true
throughout minute `00:05`, including `00:05:01`. -/
theorem stop_window_midnight_characterisation (cfg : ScheduleConfig) (t : LocalTime)
    (hparse : _parse_time cfg.stop_time = ⟨0, 0⟩) (hv : t.valid) :
    _should_stop_instances cfg t = true ↔
      (23 * 3600 + 55 * 60 ≤ secondsOfDay t ∨ secondsOfDay t < 6 * 60) := by
  obtain ⟨h, m, s⟩ := t
  simp only [LocalTime.valid] at hv
  obtain ⟨hh, hm, hs⟩ := hv
  simp only [_should_stop_instances, hparse, secondsOfDay]
  simp
  have h60 : h * 3600 + m * 60 = 60 * (h * 60 + m) := by ring
  omega

/-- C1 amended witness: inside the 23:55 side of the midnight window. -/
theorem stop_window_midnight_characterisation_witness :
    _should_stop_instances _get_default_config ⟨23, 57, 30⟩ = true := by
  exact (stop_window_midnight_characterisation _get_default_config ⟨23, 57, 30⟩
    (by decide) (by decide)).mpr (Or.inl (by decide))

/-- C3: `should_start` is true exactly when the distance in seconds between
the current time and today's date combined with the configured start time is
at most 300 (inclusive); in particular it is false at distance 301. -/
theorem start_window_tolerance (cfg : ScheduleConfig) (t : LocalTime) (hh mm : Nat)
    (hparse : _parse_time cfg.start_time = ⟨hh, mm⟩) :
    _should_start_instances cfg t = true ↔
      ((secondsOfDay t : Int) - ((hh : Int) * 3600 + (mm : Int) * 60)).natAbs ≤ 300 := by
  simp only [_should_start_instances, hparse, decide_eq_true_eq]

/-- C3 witness: `09:05:00` is exactly 300 seconds after the default start
time `09:00`, so the window is (inclusively) active. -/
theorem start_window_tolerance_witness :
    _should_start_instances _get_default_config ⟨9, 5, 0⟩ = true := by
  exact (start_window_tolerance _get_default_config ⟨9, 5, 0⟩ 9 0 (by decide)).mpr (by decide)

/-- C7: with `enabled = false`, `run` returns status `disabled` and performs
no work at all: `describe_instances` is not called, the time windows are not
evaluated, and no control or publish call is issued. -/
theorem disabled_short_circuits (cfg : ScheduleConfig) (env : Env)
    (h : cfg.enabled = false) :
    run cfg env =
      ({ status := "disabled", message := some "调度器已禁用",
         current_time := none, total_instances := none, actions := none },
       ⟨false, false, [], [], []⟩) := by
  simp [run, h]

/-- C7 witness: the disabled default configuration at a concrete
environment. -/
theorem disabled_short_circuits_witness :
    run cfgDisabled (envAt ⟨9, 0, 0⟩) =
      ({ status := "disabled", message := some "调度器已禁用",
         current_time := none, total_instances := none, actions := none },
       ⟨false, false, [], [], []⟩) :=
  disabled_short_circuits cfgDisabled (envAt ⟨9, 0, 0⟩) rfl

/-- C4: when both the start and the stop window are active, the start branch
wins: the stop control API receives no batch, no `stop` action entry is
recorded, and the invocation does not end as `no_action`. -/
theorem start_priority_over_stop (cfg : ScheduleConfig) (env : Env)
    (hstart : _should_start_instances cfg env.now = true)
    (hstop : _should_stop_instances cfg env.now = true) :
    (run cfg env).2.stopCalls = [] ∧
    (∀ acts, (run cfg env).1.actions = some acts → ∀ e ∈ acts, e.action ≠ "stop") ∧
    (run cfg env).1.status ≠ "no_action" := by
  simp only [run, hstart]
  split_ifs <;> simp_all

/-- C4 witness: start time `00:00` makes both windows active at `00:01:00`;
the stop API is not called and the run is not `no_action`. -/
theorem start_priority_over_stop_witness :
    (run cfgStartMidnight (envAt ⟨0, 1, 0⟩)).2.stopCalls = [] ∧
    (run cfgStartMidnight (envAt ⟨0, 1, 0⟩)).1.status ≠ "no_action" := by
  have h := start_priority_over_stop cfgStartMidnight (envAt ⟨0, 1, 0⟩)
    (by decide) (by decide)
  exact ⟨h.1, h.2.2⟩

/-- C8: the action result is independent of the notification outcome: `run`
returns the same `RunResult` whether `sns.publish` succeeds or raises
`ClientError` (the error is caught inside `_send_notification`), and with no
`notification_topic` configured no publish is ever attempted. -/
theorem notification_never_alters_result (cfg : ScheduleConfig) (env : Env) (b b' : Bool) :
    (run cfg { env with publishOk := b }).1 = (run cfg { env with publishOk := b' }).1 ∧
    (cfg.notification_topic = none → (run cfg env).2.publishCalls = []) := by
  obtain ⟨d, sa, so, p, nw⟩ := env
  constructor
  · simp only [run]
    split_ifs <;> rfl
  · intro h
    simp only [run]
    split_ifs <;> simp [_send_notification, h]

/-- C8 witness: the default configuration (no topic) at a concrete
environment, with the two publish outcomes compared. -/
theorem notification_never_alters_result_witness :
    (run _get_default_config { envAt ⟨9, 1, 0⟩ with publishOk := true }).1 =
      (run _get_default_config { envAt ⟨9, 1, 0⟩ with publishOk := false }).1 ∧
    (run _get_default_config (envAt ⟨9, 1, 0⟩)).2.publishCalls = [] := by
  have h := notification_never_alters_result _get_default_config (envAt ⟨9, 1, 0⟩) true false
  exact ⟨h.1, h.2 rfl⟩

/-- C10: whenever `run` ends with status `no_action`, the result still
carries the current time, the count of matched instances and an empty
actions list, alongside the message. -/
theorem no_action_result_body (cfg : ScheduleConfig) (env : Env)
    (h : (run cfg env).1.status = "no_action") :
    (run cfg env).1.current_time = some env.now ∧
    (run cfg env).1.total_instances =
      some (_find_target_instances cfg env.describeResult).length ∧
    (run cfg env).1.actions = some [] ∧
    (run cfg env).1.message = some "当前时间不在启动或停止时间窗口内" := by
  simp only [run] at h ⊢
  split_ifs at h ⊢ <;> simp_all

/-- C10 witness: noon with the default schedule is outside both windows, so
the run is `no_action` and the body fields are populated. -/
theorem no_action_result_body_witness :
    (run _get_default_config (envAt ⟨12, 0, 0⟩)).1.status = "no_action" ∧
    (run _get_default_config (envAt ⟨12, 0, 0⟩)).1.actions = some [] ∧
    (run _get_default_config (envAt ⟨12, 0, 0⟩)).1.total_instances = some 2 := by
  have h := no_action_result_body _get_default_config (envAt ⟨12, 0, 0⟩) (by decide)
  refine ⟨by decide, h.2.2.1, ?_⟩
  rw [h.2.1]
  decide

end EC2Scheduler
